import Mathlib

/-!
Shallow embedding of `reactpy/core/state_recovery.py` (classes
`StateRecoveryManager` and `StateRecoverySerializer`).

Embedding conventions, used consistently below:

* Python byte strings (`bytes`) are modelled as `List Char`; `str.encode("utf-8")`
  is modelled by `String.data`.  Lengths are counted in characters, which agrees
  with byte counts on the ASCII data exercised here.
* `hashlib.sha256(...).hexdigest()` over a sequence of `update` calls is a
  function of the concatenation of the updated byte strings; it is modelled by
  an abstract field `hashFn : List Char → String` of the serializer.
* `orjson.dumps` / `orjson.loads` are modelled at the level of parsed JSON
  structures (`JVal`).  `dumps` follows orjson's documented behaviour: it
  natively encodes `None`, `bool`, `int`, `float`, `str`, `list`, `dict`,
  `datetime`, `date`, `time`, `uuid.UUID` and dataclasses, and raises a
  `TypeError` (orjson's `JSONEncodeError` subclasses `TypeError`) for `tuple`,
  `Decimal` and other unsupported types unless a `default` encoder is supplied,
  and likewise for integers outside the 64-bit range `[-2^63, 2^64 - 1]`
  (also when they occur as list elements, dict values or dataclass fields).
  The byte rendering of a `JVal` used for signing and length checks is the
  compact JSON text `jvalBytes`.
* `base64.urlsafe_b64encode`/`..decode` form a bijection between byte strings
  and their transport form; the token's payload field is modelled as the
  decoded structure directly: `Option JVal`, where `Option.none` stands for the
  empty (undecodable) payload `""` of the `None` sentinel token.  `orjson.loads`
  applied to such an empty payload raises `orjson.JSONDecodeError` (a subclass
  of `ValueError` in Python; kept as its own class tag here).
* `pyotp.TOTP(key, interval).at(t)` is a function of the integer time step
  `int(t / interval)`; it is modelled by a manager field `otp_hash : Int → String`
  applied to the toward-zero-truncated quotient (`Int.tdiv`).  Timestamps are
  Python floats; the claims only exercise integral values, so they are
  modelled as `Int` (`0.0` and `0` coincide, as both are falsy in Python).
* Python dictionaries (insertion ordered, unique keys) are modelled as
  association lists processed in order.
-/

/-- Python exception classes that the module's code paths can raise.
`jsonDecodeError` models `orjson.JSONDecodeError`, `invalidOperation` models
`decimal.InvalidOperation`; `stateRecoveryFailureError` is the module's own
`StateRecoveryFailureError`. -/
inductive PyExcClass where
  | typeError
  | valueError
  | stateRecoveryFailureError
  | jsonDecodeError
  | invalidOperation
  deriving DecidableEq, Repr

/-- A raised Python exception: its class and (abbreviated) message. -/
structure PyExc where
  cls : PyExcClass
  msg : String
  deriving DecidableEq, Repr

/-- The Python types that occur in this development: the eight types the
registry enumeration starts from, the four calendar/decimal types the manager
appends, `dict`/`object` (never registered), and two domain dataclasses used
by the spec's concrete scenario: `Point(x, y)` and its subclass
`Point3D(x, y, z)`. -/
inductive PyTypeName where
  | pyStr
  | pyInt
  | pyFloat
  | pyBool
  | pyList
  | pyTuple
  | pyUUID
  | pyDecimal
  | pyDatetime
  | pyDate
  | pyTime
  | pyDict
  | pyObject
  | point
  | point3D
  deriving DecidableEq, Repr

/-- The method resolution order `type.__mro__` of each modelled type:
`bool` inherits from `int`, `datetime.datetime` from `datetime.date`,
`Point3D` from `Point`, everything else directly from `object`. -/
def mro : PyTypeName → List PyTypeName
  | .pyBool => [.pyBool, .pyInt, .pyObject]
  | .pyDatetime => [.pyDatetime, .pyDate, .pyObject]
  | .point3D => [.point3D, .point, .pyObject]
  | t => [t, .pyObject]

/-- Parsed JSON structures, the domain of `orjson.loads` results. -/
inductive JVal where
  | jnull
  | jbool (b : Bool)
  | jint (n : Int)
  | jnum (q : Rat)
  | jstr (s : String)
  | jarr (xs : List JVal)
  | jobj (kvs : List (String × JVal))

/-- Python values handled by the serializer.  String-carrying constructors for
`UUID`, `Decimal` and the calendar types hold the value's canonical string
rendering (which is what orjson emits for them). -/
inductive PyValue where
  | pyNone
  | pyStr (s : String)
  | pyInt (n : Int)
  | pyFloat (q : Rat)
  | pyBool (b : Bool)
  | pyList (xs : List PyValue)
  | pyTuple (xs : List PyValue)
  | pyDict (kvs : List (String × PyValue))
  | pyUUID (s : String)
  | pyDecimal (s : String)
  | pyDatetime (s : String)
  | pyDate (s : String)
  | pyTime (s : String)
  | pyPoint (x y : Int)
  | pyPoint3D (x y z : Int)

/-- `type(obj)` for non-`None` values.  (`serializeValue` tests for `None`
before ever calling this; the `pyNone` case is arbitrary.) -/
def typeOf : PyValue → PyTypeName
  | .pyNone => .pyObject
  | .pyStr _ => .pyStr
  | .pyInt _ => .pyInt
  | .pyFloat _ => .pyFloat
  | .pyBool _ => .pyBool
  | .pyList _ => .pyList
  | .pyTuple _ => .pyTuple
  | .pyDict _ => .pyDict
  | .pyUUID _ => .pyUUID
  | .pyDecimal _ => .pyDecimal
  | .pyDatetime _ => .pyDatetime
  | .pyDate _ => .pyDate
  | .pyTime _ => .pyTime
  | .pyPoint _ _ => .point
  | .pyPoint3D _ _ _ => .point3D

/-- JSON string escaping for the compact renderer (quote and backslash; control
characters do not occur in the data exercised here). -/
def jsonEscapeChar (c : Char) : List Char :=
  if c = '"' || c = '\\' then ['\\', c] else [c]

def jsonEscape (s : String) : String :=
  String.mk (s.data.foldr (fun c acc => jsonEscapeChar c ++ acc) [])

mutual

/-- Compact JSON text of a parsed structure: the byte image `orjson.dumps`
produces (and whose length `len(result)` measures). -/
def jvalString : JVal → String
  | .jnull => "null"
  | .jbool b => if b then "true" else "false"
  | .jint n => toString n
  | .jnum q => toString q
  | .jstr s => "\"" ++ jsonEscape s ++ "\""
  | .jarr xs => "[" ++ jvalStringArr xs ++ "]"
  | .jobj kvs => "\x7b" ++ jvalStringObj kvs ++ "\x7d"

def jvalStringArr : List JVal → String
  | [] => ""
  | [x] => jvalString x
  | x :: y :: rest => jvalString x ++ "," ++ jvalStringArr (y :: rest)

def jvalStringObj : List (String × JVal) → String
  | [] => ""
  | [(k, v)] => "\"" ++ jsonEscape k ++ "\":" ++ jvalString v
  | (k, v) :: y :: rest =>
      "\"" ++ jsonEscape k ++ "\":" ++ jvalString v ++ "," ++ jvalStringObj (y :: rest)

end

/-- The byte string of a JSON structure (UTF-8 of its compact text). -/
def jvalBytes (j : JVal) : List Char := (jvalString j).data

/-- orjson serializes only integers in the 64-bit range
`-2^63 <= n <= 2^64 - 1` (the union of `i64` and `u64`); anything outside
raises `JSONEncodeError` ("Integer exceeds 64-bit range"). -/
def orjsonIntOk (n : Int) : Bool := -(2 ^ 63) ≤ n && n < 2 ^ 64

mutual

/-- `orjson.dumps(obj, default=defEnc)`, at the level of the JSON structure the
emitted bytes parse back to.  Natively supported types follow orjson's
documentation; `tuple` and `Decimal` are unsupported and go through the
`default` encoder, or raise `TypeError` when none is given.  A dataclass such
as `Point` is emitted as the map of its fields. -/
def dumps (defEnc : Option (PyValue → Except PyExc JVal)) : PyValue → Except PyExc JVal
  | .pyNone => .ok .jnull
  | .pyBool b => .ok (.jbool b)
  | .pyInt n =>
      if orjsonIntOk n then .ok (.jint n)
      else .error ⟨.typeError, "Integer exceeds 64-bit range"⟩
  | .pyFloat q => .ok (.jnum q)
  | .pyStr s => .ok (.jstr s)
  | .pyUUID s => .ok (.jstr s)
  | .pyDatetime s => .ok (.jstr s)
  | .pyDate s => .ok (.jstr s)
  | .pyTime s => .ok (.jstr s)
  | .pyPoint x y =>
      if orjsonIntOk x && orjsonIntOk y then .ok (.jobj [("x", .jint x), ("y", .jint y)])
      else .error ⟨.typeError, "Integer exceeds 64-bit range"⟩
  | .pyPoint3D x y z =>
      if orjsonIntOk x && orjsonIntOk y && orjsonIntOk z then
        .ok (.jobj [("x", .jint x), ("y", .jint y), ("z", .jint z)])
      else .error ⟨.typeError, "Integer exceeds 64-bit range"⟩
  | .pyList xs =>
      match dumpsArr defEnc xs with
      | .error e => .error e
      | .ok ys => .ok (.jarr ys)
  | .pyDict kvs =>
      match dumpsObj defEnc kvs with
      | .error e => .error e
      | .ok ys => .ok (.jobj ys)
  | .pyTuple xs =>
      match defEnc with
      | Option.none => .error ⟨.typeError, "Type is not JSON serializable: tuple"⟩
      | some f => f (.pyTuple xs)
  | .pyDecimal s =>
      match defEnc with
      | Option.none => .error ⟨.typeError, "Type is not JSON serializable: decimal.Decimal"⟩
      | some f => f (.pyDecimal s)

def dumpsArr (defEnc : Option (PyValue → Except PyExc JVal)) :
    List PyValue → Except PyExc (List JVal)
  | [] => .ok []
  | x :: xs =>
      match dumps defEnc x with
      | .error e => .error e
      | .ok y =>
          match dumpsArr defEnc xs with
          | .error e => .error e
          | .ok ys => .ok (y :: ys)

def dumpsObj (defEnc : Option (PyValue → Except PyExc JVal)) :
    List (String × PyValue) → Except PyExc (List (String × JVal))
  | [] => .ok []
  | (k, v) :: kvs =>
      match dumps defEnc v with
      | .error e => .error e
      | .ok y =>
          match dumpsObj defEnc kvs with
          | .error e => .error e
          | .ok ys => .ok ((k, y) :: ys)

end

/-- `orjson.loads` applied to a token payload: the `None`-sentinel's empty
payload is not valid JSON and raises `orjson.JSONDecodeError`; any other
payload carries its parsed structure. -/
def loads : Option JVal → Except PyExc JVal
  | Option.none => .error ⟨.jsonDecodeError, "unexpected end of data"⟩
  | some j => .ok j

mutual

/-- The Python value an orjson-parsed structure denotes when returned
unconverted (`return result` in `_deserialize_object`): JSON maps become
dicts, arrays become lists. -/
def jvalToPy : JVal → PyValue
  | .jnull => .pyNone
  | .jbool b => .pyBool b
  | .jint n => .pyInt n
  | .jnum q => .pyFloat q
  | .jstr s => .pyStr s
  | .jarr xs => .pyList (jvalToPyArr xs)
  | .jobj kvs => .pyDict (jvalToPyObj kvs)

def jvalToPyArr : List JVal → List PyValue
  | [] => []
  | x :: xs => jvalToPy x :: jvalToPyArr xs

def jvalToPyObj : List (String × JVal) → List (String × PyValue)
  | [] => []
  | (k, v) :: kvs => (k, jvalToPy v) :: jvalToPyObj kvs

end

def isLowerHex (c : Char) : Bool :=
  c.isDigit || ('a' ≤ c && c ≤ 'f')

/-- Canonical (dashed, lower-case hex) UUID text, the form `str(uuid)` prints
and `uuid.UUID(s)` accepts.  (Python's `UUID` also accepts braced/urn variants;
only the canonical form matters here, since it is what round-trips.) -/
def uuidCanonical (s : String) : Bool :=
  s.length == 36 &&
    s.data.enum.all (fun ic =>
      if ic.1 == 8 || ic.1 == 13 || ic.1 == 18 || ic.1 == 23 then ic.2 == '-'
      else isLowerHex ic.2)

/-- Accumulating decimal parse of a digit run (empty runs accepted by the
caller's guard). -/
def digitsValAux : List Char → Nat → Option Nat
  | [], acc => some acc
  | c :: rest, acc =>
      if c.isDigit then digitsValAux rest (acc * 10 + (c.toNat - 48)) else Option.none

/-- Python's `int(s)` on a plain decimal literal (optional leading minus);
anything else is the `ValueError`.  (Whitespace tolerance and other bases are
not exercised here.) -/
def pyIntParse (s : String) : Option Int :=
  match s.data with
  | [] => Option.none
  | '-' :: rest =>
      match rest with
      | [] => Option.none
      | l => (digitsValAux l 0).map (fun n => -(n : Int))
  | l => (digitsValAux l 0).map (fun n => (n : Int))

/-- `typ(result)` for a string `result`: the single-argument constructor call
performed by `_deserialize_object` when the parsed payload is a `str`.
Modelled per Python semantics for each registry type (numeric parsing is
simplified to integer literals, which covers everything exercised here). -/
def pyConstruct1 : PyTypeName → String → Except PyExc PyValue
  | .pyStr, s => .ok (.pyStr s)
  | .pyInt, s =>
      match pyIntParse s with
      | some n => .ok (.pyInt n)
      | Option.none => .error ⟨.valueError, "invalid literal for int() with base 10"⟩
  | .pyFloat, s =>
      match pyIntParse s with
      | some n => .ok (.pyFloat n)
      | Option.none => .error ⟨.valueError, "could not convert string to float"⟩
  | .pyBool, s => .ok (.pyBool (!s.data.isEmpty))
  | .pyList, s => .ok (.pyList (s.data.map (fun c => .pyStr (String.mk [c]))))
  | .pyTuple, s => .ok (.pyTuple (s.data.map (fun c => .pyStr (String.mk [c]))))
  | .pyUUID, s =>
      if uuidCanonical s then .ok (.pyUUID s)
      else .error ⟨.valueError, "badly formed hexadecimal UUID string"⟩
  | .pyDecimal, s =>
      match pyIntParse s with
      | some _ => .ok (.pyDecimal s)
      | Option.none => .error ⟨.invalidOperation, "invalid decimal literal"⟩
  | .pyDatetime, _ => .error ⟨.typeError, "an integer is required (got type str)"⟩
  | .pyDate, _ => .error ⟨.typeError, "an integer is required (got type str)"⟩
  | .pyTime, _ => .error ⟨.typeError, "an integer is required (got type str)"⟩
  | .pyDict, _ => .error ⟨.valueError, "dictionary update sequence element has wrong length"⟩
  | .pyObject, _ => .error ⟨.typeError, "object() takes no arguments"⟩
  | .point, _ => .error ⟨.typeError, "missing required positional argument"⟩
  | .point3D, _ => .error ⟨.typeError, "missing required positional argument"⟩

/-- First binding of a key in a parsed JSON map (Python dict keys are unique). -/
def lookupStr : List (String × JVal) → String → Option JVal
  | [], _ => Option.none
  | (k, v) :: kvs, key => if k = key then some v else lookupStr kvs key

/-- `typ(**result)` for a map `result`: the keyword-expanded constructor call
performed by `_deserialize_object` when the parsed payload is a dict.  The
dataclasses `Point`/`Point3D` require exactly their field names (with integer
values, matching their declared fields); most built-ins reject keyword
arguments but accept the empty expansion `typ()`. -/
def pyConstructKw : PyTypeName → List (String × JVal) → Except PyExc PyValue
  | .point, kvs =>
      match lookupStr kvs "x", lookupStr kvs "y" with
      | some (.jint a), some (.jint b) =>
          if kvs.length = 2 then .ok (.pyPoint a b)
          else .error ⟨.typeError, "got an unexpected keyword argument"⟩
      | _, _ => .error ⟨.typeError, "missing required positional argument"⟩
  | .point3D, kvs =>
      match lookupStr kvs "x", lookupStr kvs "y", lookupStr kvs "z" with
      | some (.jint a), some (.jint b), some (.jint c) =>
          if kvs.length = 3 then .ok (.pyPoint3D a b c)
          else .error ⟨.typeError, "got an unexpected keyword argument"⟩
      | _, _, _ => .error ⟨.typeError, "missing required positional argument"⟩
  | .pyDict, kvs => .ok (.pyDict (jvalToPyObj kvs))
  | .pyInt, [] => .ok (.pyInt 0)
  | .pyFloat, [] => .ok (.pyFloat 0)
  | .pyBool, [] => .ok (.pyBool false)
  | .pyStr, [] => .ok (.pyStr "")
  | .pyList, [] => .ok (.pyList [])
  | .pyTuple, [] => .ok (.pyTuple [])
  | .pyDecimal, [] => .ok (.pyDecimal "0")
  | _, _ => .error ⟨.typeError, "got an unexpected keyword argument"⟩

/-- The registry enumeration of `_map_objects_to_ids`, as called from
`StateRecoveryManager.__init__`: the tuple
`(None, str, int, float, bool, list, tuple, UUID, *serializable_objects,
Decimal, datetime, date, time)` in order.  `Option.none` is the literal `None`
entry at position 0. -/
def registryEntries (serializable_objects : List PyTypeName) : List (Option PyTypeName) :=
  [Option.none, some PyTypeName.pyStr, some PyTypeName.pyInt, some PyTypeName.pyFloat,
   some PyTypeName.pyBool, some PyTypeName.pyList, some PyTypeName.pyTuple,
   some PyTypeName.pyUUID]
    ++ (serializable_objects ++
        [PyTypeName.pyDecimal, PyTypeName.pyDatetime, PyTypeName.pyDate,
         PyTypeName.pyTime]).map some

/-- `self._object_to_type_id.get(t)`: the dict is filled by index order, so a
type appearing twice keeps its last (highest) index.  Identifiers are
`str(idx)`. -/
def objectToTypeId (entries : List (Option PyTypeName)) (t : PyTypeName) : Option String :=
  entries.enum.foldl
    (fun acc ie => if ie.2 = some t then some (toString ie.1) else acc) Option.none

/-- `self._type_id_to_object[tid]` as a total lookup: `Option.none` models a
`KeyError`, `some Option.none` is the `None` entry.  Indices are distinct, so
at most one enumeration position matches. -/
def typeIdToObject (entries : List (Option PyTypeName)) (tid : String) :
    Option (Option PyTypeName) :=
  entries.enum.foldl
    (fun acc ie => if toString ie.1 = tid then some ie.2 else acc) Option.none

/-- The wire token: `(type_id, payload, signature)`.  The payload field is the
parsed form of the URL-safe-base64 payload string, `Option.none` standing for
the empty payload of the `None` sentinel. -/
abbrev Token := String × Option JVal × String

/-- The per-request serializer (`StateRecoverySerializer.__init__`): secrets as
byte strings, the shared registry enumeration, the length limit and the two
optional encode/decode hooks.  `hashFn` models `hashlib.sha256(..).hexdigest()`
on the concatenation of the updated byte strings. -/
structure StateRecoverySerializer where
  hashFn : List Char → String
  otp_code : List Char
  pepper : List Char
  salt : List Char
  entries : List (Option PyTypeName)
  max_object_length : Nat
  default_serializer : Option (PyValue → Except PyExc JVal)
  deserializer_map : List (PyTypeName × (JVal → Except PyExc PyValue))

/-- `self._deserializer_map.get(typ)`. -/
def lookupDeser : List (PyTypeName × (JVal → Except PyExc PyValue)) → PyTypeName →
    Option (JVal → Except PyExc PyValue)
  | [], _ => Option.none
  | (t, f) :: rest, typ => if t = typ then some f else lookupDeser rest typ

/-- `_sign_serialization`: one SHA-256 hex digest over the `update` sequence
`type_id, data, pepper, otp_code, salt, key` — i.e. over their concatenation
in exactly that order. -/
def sign_serialization (s : StateRecoverySerializer) (key : String)
    (type_id : List Char) (data : List Char) : String :=
  s.hashFn (type_id ++ data ++ s.pepper ++ s.otp_code ++ s.salt ++ key.data)

/-- The mro walk inside `_serialize`: the first type in `obj_type.__mro__` with
a registered identifier wins (identifiers `str(idx)` are never empty, so the
`if type_id:` truthiness test is exactly "found"). -/
def resolveTypeId (entries : List (Option PyTypeName)) : List PyTypeName → Option String
  | [] => Option.none
  | t :: rest =>
      match objectToTypeId entries t with
      | some tid => some tid
      | Option.none => resolveTypeId entries rest

/-- `_serialize`: `None` becomes the sentinel `("0", "", "")`; otherwise
resolve the type id over the mro (else `ValueError`, the whitelist violation),
encode with orjson (errors propagate), enforce `max_object_length` (else
`ValueError`), sign, and emit the token. -/
def serializeValue (s : StateRecoverySerializer) (key : String) (obj : PyValue) :
    Except PyExc Token :=
  match obj with
  | .pyNone => .ok ("0", Option.none, "")
  | _ =>
      match resolveTypeId s.entries (mro (typeOf obj)) with
      | Option.none => .error ⟨.valueError, "was not white-listed for serialization"⟩
      | some type_id =>
          match dumps s.default_serializer obj with
          | .error e => .error e
          | .ok j =>
              if s.max_object_length < (jvalBytes j).length then
                .error ⟨.valueError, "Serialized object is too long"⟩
              else
                .ok (type_id, some j, sign_serialization s key type_id.data (jvalBytes j))

/-- `serialize_state_vars`: serialize each entry of the (insertion-ordered)
mapping; the first raised exception aborts the whole call. -/
def serialize_state_vars (s : StateRecoverySerializer) :
    List (String × PyValue) → Except PyExc (List (String × Token))
  | [] => .ok []
  | (k, v) :: rest =>
      match serializeValue s k v with
      | .error e => .error e
      | .ok t =>
          match serialize_state_vars s rest with
          | .error e => .error e
          | .ok r => .ok ((k, t) :: r)

/-- The bytes of a token payload: the `None` sentinel's payload decodes to the
empty byte string, any other payload to its compact JSON text. -/
def payloadBytes : Option JVal → List Char
  | Option.none => []
  | some j => jvalBytes j

/-- `_deserialize_object`: the defensive `typ is None` check, then
`orjson.loads`, then the custom-deserializer hook, then the duck-typed
constructor dispatch on the parsed payload's shape.  Constructor failures
propagate as the constructor's own exception — there is no wrapping. -/
def deserialize_object (s : StateRecoverySerializer) (typOpt : Option PyTypeName)
    (data : Option JVal) : Except PyExc PyValue :=
  match typOpt with
  | Option.none => .ok .pyNone
  | some typ =>
      match loads data with
      | .error e => .error e
      | .ok result =>
          match lookupDeser s.deserializer_map typ with
          | some d => d result
          | Option.none =>
              match result with
              | .jstr str => pyConstruct1 typ str
              | .jobj kvs => pyConstructKw typ kvs
              | _ => .ok (jvalToPy result)

/-- `_deserialize`: the `"0"` sentinel short-circuits to `None` before any
lookup or signature work; unknown ids raise `StateRecoveryFailureError`; then
the signature is recomputed from this serializer's own secrets and compared,
mismatches raising `StateRecoveryFailureError`; finally the object is
reconstructed. -/
def deserializeValue (s : StateRecoverySerializer) (key : String) (type_id : String)
    (data : Option JVal) (signature : String) : Except PyExc PyValue :=
  if type_id = "0" then .ok .pyNone
  else
    match typeIdToObject s.entries type_id with
    | Option.none => .error ⟨.stateRecoveryFailureError, "Unknown type id"⟩
    | some typOpt =>
        if sign_serialization s key type_id.data (payloadBytes data) ≠ signature then
          .error ⟨.stateRecoveryFailureError, "Signature mismatch"⟩
        else deserialize_object s typOpt data

/-- `deserialize_client_state`: deserialize each token of the mapping in
order; the first raised exception aborts the whole call, so the caller never
sees a partial result. -/
def deserialize_client_state (s : StateRecoverySerializer) :
    List (String × Token) → Except PyExc (List (String × PyValue))
  | [] => .ok []
  | (k, tok) :: rest =>
      match deserializeValue s k tok.1 tok.2.1 tok.2.2 with
      | .error e => .error e
      | .ok v =>
          match deserialize_client_state s rest with
          | .error e => .error e
          | .ok r => .ok ((k, v) :: r)

/-- The process-wide manager (`StateRecoveryManager.__init__`): pepper,
TOTP schedule (modelled by `otp_hash` over the integer time step and the
interval), the two limits, the registry enumeration built over the supplied
whitelist, and the optional hooks.  Note `max_objects` is stored and never
read again anywhere in the module. -/
structure StateRecoveryManager where
  pepper : List Char
  otp_hash : Int → String
  otp_interval : Int
  max_objects : Nat
  max_object_length : Nat
  entries : List (Option PyTypeName)
  default_serializer : Option (PyValue → Except PyExc JVal)
  deserializer_map : List (PyTypeName × (JVal → Except PyExc PyValue))
  hashFn : List Char → String

/-- Manager construction: records the configuration and builds the registry
enumeration from the whitelist (`_map_objects_to_ids`; no other computation on
the whitelist happens, and no code path raises). -/
def mkStateRecoveryManager (serializable_objects : List PyTypeName) (pepper : String)
    (otp_hash : Int → String) (otp_interval : Int) (max_objects : Nat)
    (max_object_length : Nat) (default_serializer : Option (PyValue → Except PyExc JVal))
    (deserializer_map : List (PyTypeName × (JVal → Except PyExc PyValue)))
    (hashFn : List Char → String) : StateRecoveryManager :=
  { pepper := pepper.data
    otp_hash := otp_hash
    otp_interval := otp_interval
    max_objects := max_objects
    max_object_length := max_object_length
    entries := registryEntries serializable_objects
    default_serializer := default_serializer
    deserializer_map := deserializer_map
    hashFn := hashFn }

/-- `self._totp.at(t)`: the rotating code is a function of the integer time
step `int(t / interval)` — the toward-zero truncation of the real quotient,
which for integral `t` is `Int.tdiv`. -/
def totpAt (m : StateRecoveryManager) (t : Int) : String :=
  m.otp_hash (Int.tdiv t m.otp_interval)

/-- Python's `target_time or time.time()`: `None` and the falsy numbers `0`
and `0.0` both fall back to the current wall-clock time. -/
def pyOrTime (target_time : Option Int) (now : Int) : Int :=
  match target_time with
  | Option.none => now
  | some t => if t = 0 then now else t

/-- `create_serializer`: mints a serializer bound to the code
`self._totp.at(target_time or time.time())`, the manager's pepper, the given
salt, the shared registry, length limit and hooks.  `now` is the ambient
`time.time()` value. -/
def create_serializer (m : StateRecoveryManager) (salt : String)
    (target_time : Option Int) (now : Int) : StateRecoverySerializer :=
  { hashFn := m.hashFn
    otp_code := (totpAt m (pyOrTime target_time now)).data
    pepper := m.pepper
    salt := salt.data
    entries := m.entries
    max_object_length := m.max_object_length
    default_serializer := m.default_serializer
    deserializer_map := m.deserializer_map }

/-! ## Concrete fixtures used by witnesses and counterexamples -/

/-- A concrete, injective stand-in for the SHA-256 hex digest: the identity on
the concatenated byte stream (rendered as a string). -/
def idHash : List Char → String := fun cs => String.mk cs

theorem idHash_injective : Function.Injective idHash := by
  intro a b h
  simpa [idHash] using congrArg String.data h

/-- The spec's concrete scenario manager: whitelist `[Point]`, pepper
`"p3pp3r"`, interval 14400 s, default limits. -/
def pointMgr : StateRecoveryManager :=
  mkStateRecoveryManager [PyTypeName.point] "p3pp3r" (fun n => toString n) 14400 256 40000
    Option.none [] idHash

/-- The scenario serializer: minted from `pointMgr` at `t = 1000` with salt
`"sess"`. -/
def testSer : StateRecoverySerializer := create_serializer pointMgr "sess" (some 1000) 1000

/-- A manager with an empty whitelist and `max_objects = 2`. -/
def smallMgr : StateRecoveryManager :=
  mkStateRecoveryManager [] "p" (fun n => toString n) 14400 2 40000 Option.none [] idHash

def smallSer : StateRecoverySerializer := create_serializer smallMgr "s" (some 1000) 1000

/-! ## Claims -/

/-- C8: serializing `None` yields the sentinel triple `("0", "", "")` with no
signature computed, and deserializing any token whose type id is `"0"` returns
`None` without any signature check, whatever the serializer's pepper, code or
salt and whatever payload and signature the token carries. -/
theorem C8_none_sentinel :
    (∀ (s : StateRecoverySerializer) (key : String),
      serializeValue s key PyValue.pyNone = .ok ("0", Option.none, "")) ∧
    (∀ (s : StateRecoverySerializer) (key : String) (payload : Option JVal) (sig : String),
      deserializeValue s key "0" payload sig = .ok PyValue.pyNone) := by
  constructor
  · intro s key
    rfl
  · intro s key payload sig
    simp [deserializeValue]

/-- C10: in `create_serializer`, the fallback `target_time or time.time()`
tests truthiness, so an explicit `target_time` of `0` (or `0.0`) is ignored
and the rotating code is taken at the current wall-clock time, while every
nonzero `target_time` is honoured. -/
theorem C10_zero_target_time (m : StateRecoveryManager) (salt : String) (now : Int) :
    (create_serializer m salt (some 0) now = create_serializer m salt Option.none now ∧
      (create_serializer m salt (some 0) now).otp_code = (totpAt m now).data) ∧
    (∀ t : Int, t ≠ 0 →
      (create_serializer m salt (some t) now).otp_code = (totpAt m t).data) := by
  refine ⟨⟨?_, ?_⟩, ?_⟩
  · simp [create_serializer, pyOrTime]
  · simp [create_serializer, pyOrTime]
  · intro t ht
    simp [create_serializer, pyOrTime, ht]

/-- C10 witness: at the concrete manager `pointMgr`, a nonzero target time is
honoured. -/
theorem C10_zero_target_time_witness :
    (create_serializer pointMgr "sess" (some 1000) 5).otp_code = (totpAt pointMgr 1000).data :=
  (C10_zero_target_time pointMgr "sess" 5).2 1000 (by norm_num)

/-- C4 (code bug evidence): the manager stores `max_objects = 2`, yet a batch
of 3 entries serializes without any error — `serialize_state_vars` never
consults the bound, so no `TooManyValues` guard exists. -/
theorem C4_no_batch_size_guard :
    smallMgr.max_objects = 2 ∧
    (serialize_state_vars smallSer
        [("a", PyValue.pyInt 1), ("b", PyValue.pyInt 2), ("c", PyValue.pyInt 3)]).isOk
      = true := by
  constructor
  · rfl
  · rfl

/-- C5 counterexample: constructing a manager whose whitelist contains `str`
(a collision with reserved identifier `"1"`) does not fail — there is no
collision check.  The dict write-over just reassigns `str` to the later
identifier `"8"`, and both `"1"` and `"8"` still resolve to `str`. -/
theorem C5_collision_not_rejected :
    (mkStateRecoveryManager [PyTypeName.pyStr] "p" (fun n => toString n) 14400 256 40000
        Option.none [] idHash).entries = registryEntries [PyTypeName.pyStr] ∧
    objectToTypeId (registryEntries [PyTypeName.pyStr]) PyTypeName.pyStr = some "8" ∧
    typeIdToObject (registryEntries [PyTypeName.pyStr]) "1" = some (some PyTypeName.pyStr) ∧
    typeIdToObject (registryEntries [PyTypeName.pyStr]) "8" = some (some PyTypeName.pyStr) := by
  refine ⟨rfl, ?_, ?_, ?_⟩ <;> rfl

/-- C5 amended: construction never fails on identifier collisions (no check
exists): a colliding whitelist is accepted, the colliding type silently keeps
the later (higher) identifier while both identifiers resolve back to it; a
collision-free whitelist is likewise accepted, the built-ins keeping their
reserved identifiers. -/
theorem C5_collision_silently_remapped :
    (mkStateRecoveryManager [PyTypeName.pyStr] "p" (fun n => toString n) 14400 256 40000
        Option.none [] idHash).entries = registryEntries [PyTypeName.pyStr] ∧
    objectToTypeId (registryEntries [PyTypeName.pyStr]) PyTypeName.pyStr = some "8" ∧
    typeIdToObject (registryEntries [PyTypeName.pyStr]) "1" = some (some PyTypeName.pyStr) ∧
    typeIdToObject (registryEntries [PyTypeName.pyStr]) "8" = some (some PyTypeName.pyStr) ∧
    pointMgr.entries = registryEntries [PyTypeName.point] ∧
    objectToTypeId (registryEntries [PyTypeName.point]) PyTypeName.point = some "8" ∧
    objectToTypeId (registryEntries [PyTypeName.point]) PyTypeName.pyStr = some "1" ∧
    objectToTypeId (registryEntries [PyTypeName.point]) PyTypeName.pyInt = some "2" := by
  refine ⟨rfl, rfl, rfl, rfl, rfl, rfl, rfl, rfl⟩

/-- C7 counterexample: with whitelist exactly `{Point}`, serializing a `Point`
yields a token whose type id is `"8"`, not `"9"`: the 8 built-ins occupy
positions 0–7, so the first domain type sits at position 8. -/
theorem C7_type_id_is_8_not_9 :
    (serialize_state_vars testSer [("pos", PyValue.pyPoint 1 2)]).map
        (List.map (fun kv => (kv.1, kv.2.1)))
      = .ok [("pos", "8")] ∧ ("8" : String) ≠ "9" := by
  exact ⟨rfl, by decide⟩

/-- C7 amended: with whitelist exactly `{Point}`, serializing
`{"pos": Point(x=1, y=2)}` at `t = 1000` yields the token with type id `"8"`
(the position immediately after the 8 built-ins, which occupy identifiers
`"0"`–`"7"`), payload decoding to `{"x":1,"y":2}`, and the signature over
those fields. -/
theorem C7_first_domain_type_id :
    serialize_state_vars testSer [("pos", PyValue.pyPoint 1 2)]
      = .ok [("pos", ("8", some (JVal.jobj [("x", JVal.jint 1), ("y", JVal.jint 2)]),
          sign_serialization testSer "pos" "8".data
            (jvalBytes (JVal.jobj [("x", JVal.jint 1), ("y", JVal.jint 2)]))))] ∧
    objectToTypeId (registryEntries [PyTypeName.point]) PyTypeName.point = some "8" := by
  exact ⟨rfl, rfl⟩

/-! ## Helper lemmas -/

theorem append_mid_inj {α : Type} {p x y s : List α}
    (h : p ++ (x ++ s) = p ++ (y ++ s)) : x = y :=
  List.append_cancel_right (List.append_cancel_left h)

/-- Unfolding of `_deserialize` past the sentinel check and the registry
lookup: what remains is exactly the signature gate. -/
theorem deserializeValue_gate (s : StateRecoverySerializer) (key type_id : String)
    (data : Option JVal) (sig : String) (typOpt : Option PyTypeName)
    (hnz : type_id ≠ "0")
    (hreg : typeIdToObject s.entries type_id = some typOpt) :
    deserializeValue s key type_id data sig =
      if sign_serialization s key type_id.data (payloadBytes data) ≠ sig then
        .error ⟨.stateRecoveryFailureError, "Signature mismatch"⟩
      else deserialize_object s typOpt data := by
  unfold deserializeValue
  rw [if_neg hnz, hreg]

theorem string_data_inj {a b : String} (h : a.data = b.data) : a = b := by
  cases a
  cases b
  exact congrArg String.mk h

/-- C2: for a non-sentinel token of a registered type id, the signature gate
accepts exactly when the supplied signature equals the serializer's digest of
`type_id ++ payload-bytes ++ pepper ++ code ++ salt ++ name`, concatenated in
that order (acceptance meaning the value proceeds to reconstruction; anything
else is the `StateRecoveryFailureError` signature mismatch).  Only the
serializer's own secrets enter the digest, so — for an injective digest —
changing the payload, the name, the salt, or the rotating code while keeping
the rest fixed is rejected as a signature mismatch. -/
theorem C2_signature_gate (s : StateRecoverySerializer) (key type_id : String)
    (data : Option JVal) (sig : String) (typOpt : Option PyTypeName)
    (hnz : type_id ≠ "0")
    (hreg : typeIdToObject s.entries type_id = some typOpt) :
    (sig = s.hashFn (type_id.data ++ payloadBytes data ++ s.pepper ++ s.otp_code
        ++ s.salt ++ key.data) →
      deserializeValue s key type_id data sig = deserialize_object s typOpt data) ∧
    (sig ≠ s.hashFn (type_id.data ++ payloadBytes data ++ s.pepper ++ s.otp_code
        ++ s.salt ++ key.data) →
      deserializeValue s key type_id data sig
        = .error ⟨.stateRecoveryFailureError, "Signature mismatch"⟩) ∧
    (∀ data' : Option JVal, Function.Injective s.hashFn →
      payloadBytes data' ≠ payloadBytes data →
      deserializeValue s key type_id data'
          (sign_serialization s key type_id.data (payloadBytes data))
        = .error ⟨.stateRecoveryFailureError, "Signature mismatch"⟩) ∧
    (∀ key' : String, Function.Injective s.hashFn → key' ≠ key →
      deserializeValue s key' type_id data
          (sign_serialization s key type_id.data (payloadBytes data))
        = .error ⟨.stateRecoveryFailureError, "Signature mismatch"⟩) ∧
    (∀ s' : StateRecoverySerializer, Function.Injective s.hashFn →
      s'.hashFn = s.hashFn → s'.pepper = s.pepper → s'.otp_code = s.otp_code →
      s'.entries = s.entries → s'.salt ≠ s.salt →
      deserializeValue s' key type_id data
          (sign_serialization s key type_id.data (payloadBytes data))
        = .error ⟨.stateRecoveryFailureError, "Signature mismatch"⟩) ∧
    (∀ s' : StateRecoverySerializer, Function.Injective s.hashFn →
      s'.hashFn = s.hashFn → s'.pepper = s.pepper → s'.salt = s.salt →
      s'.entries = s.entries → s'.otp_code ≠ s.otp_code →
      deserializeValue s' key type_id data
          (sign_serialization s key type_id.data (payloadBytes data))
        = .error ⟨.stateRecoveryFailureError, "Signature mismatch"⟩) := by
  refine ⟨?_, ?_, ?_, ?_, ?_, ?_⟩
  · intro h
    rw [deserializeValue_gate s key type_id data sig typOpt hnz hreg, if_neg]
    intro hne
    exact hne (by simp [sign_serialization, h])
  · intro h
    rw [deserializeValue_gate s key type_id data sig typOpt hnz hreg, if_pos]
    intro heq
    refine h ?_
    simp only [List.append_assoc]
    simpa [sign_serialization, List.append_assoc] using heq.symm
  · intro data' hinj hne
    rw [deserializeValue_gate s key type_id data' _ typOpt hnz hreg, if_pos]
    intro heq
    simp only [sign_serialization] at heq
    have h2 := hinj heq
    simp only [List.append_assoc] at h2
    exact hne (List.append_cancel_right (List.append_cancel_left h2))
  · intro key' hinj hne
    rw [deserializeValue_gate s key' type_id data _ typOpt hnz hreg, if_pos]
    intro heq
    simp only [sign_serialization] at heq
    have h2 := hinj heq
    simp only [List.append_assoc] at h2
    have h3 := List.append_cancel_left (List.append_cancel_left (List.append_cancel_left
      (List.append_cancel_left (List.append_cancel_left h2))))
    exact hne (string_data_inj h3)
  · intro s' hinj hhf hpep hcode hent hne
    rw [deserializeValue_gate s' key type_id data _ typOpt hnz (hent ▸ hreg), if_pos]
    intro heq
    simp only [sign_serialization, hhf, hpep, hcode] at heq
    have h2 := hinj heq
    simp only [List.append_assoc] at h2
    have h3 := List.append_cancel_left (List.append_cancel_left (List.append_cancel_left
      (List.append_cancel_left h2)))
    exact hne (List.append_cancel_right h3)
  · intro s' hinj hhf hpep hsalt hent hne
    rw [deserializeValue_gate s' key type_id data _ typOpt hnz (hent ▸ hreg), if_pos]
    intro heq
    simp only [sign_serialization, hhf, hpep, hsalt] at heq
    have h2 := hinj heq
    simp only [List.append_assoc] at h2
    have h3 := List.append_cancel_left (List.append_cancel_left (List.append_cancel_left h2))
    exact hne (List.append_cancel_right h3)

/-- C2 witness: at the concrete scenario serializer, a token whose payload was
replaced (signature left as the digest of the original payload) is rejected
with the signature mismatch. -/
theorem C2_signature_gate_witness :
    deserializeValue testSer "k" "2" (some (JVal.jstr "99"))
        (sign_serialization testSer "k" "2".data (payloadBytes (some (JVal.jint 3))))
      = .error ⟨.stateRecoveryFailureError, "Signature mismatch"⟩ :=
  (C2_signature_gate testSer "k" "2" (some (JVal.jint 3)) "" (some PyTypeName.pyInt)
      (by decide) rfl).2.2.1 (some (JVal.jstr "99")) idHash_injective (by decide)

/-- The mro walk returns the id of the first type in the list that is
registered. -/
theorem resolveTypeId_first (entries : List (Option PyTypeName)) :
    ∀ (pre : List PyTypeName) (a : PyTypeName) (post : List PyTypeName) (tid : String),
      (∀ b ∈ pre, objectToTypeId entries b = Option.none) →
      objectToTypeId entries a = some tid →
      resolveTypeId entries (pre ++ a :: post) = some tid := by
  intro pre
  induction pre with
  | nil =>
      intro a post tid _ ha
      simp [resolveTypeId, ha]
  | cons b rest ih =>
      intro a post tid hpre ha
      have hb : objectToTypeId entries b = Option.none := hpre b (by simp)
      simp only [List.cons_append, resolveTypeId, hb]
      exact ih a post tid (fun c hc => hpre c (by simp [hc])) ha

/-- The mro walk fails when nothing in the list is registered. -/
theorem resolveTypeId_none (entries : List (Option PyTypeName)) :
    ∀ l : List PyTypeName, (∀ b ∈ l, objectToTypeId entries b = Option.none) →
      resolveTypeId entries l = Option.none := by
  intro l
  induction l with
  | nil => intro _; rfl
  | cons b rest ih =>
      intro h
      simp only [resolveTypeId, h b (by simp)]
      exact ih (fun c hc => h c (by simp [hc]))

/-- `_serialize` on a non-`None` value, written with the mro walk exposed. -/
theorem serializeValue_of_ne_none (s : StateRecoverySerializer) (key : String)
    (obj : PyValue) (h : obj ≠ PyValue.pyNone) :
    serializeValue s key obj =
      match resolveTypeId s.entries (mro (typeOf obj)) with
      | Option.none => .error ⟨.valueError, "was not white-listed for serialization"⟩
      | some type_id =>
          match dumps s.default_serializer obj with
          | .error e => .error e
          | .ok j =>
              if s.max_object_length < (jvalBytes j).length then
                .error ⟨.valueError, "Serialized object is too long"⟩
              else
                .ok (type_id, some j, sign_serialization s key type_id.data (jvalBytes j)) := by
  cases obj <;> first
    | exact absurd rfl h
    | rfl

/-- C3: type-id resolution during serialization walks the value's mro from
most specific to least specific and uses the identifier of the first (nearest)
registered ancestor — an exact match is not required, so a value whose own
type is unregistered serializes under a registered superclass's identifier
(the emitted token carrying exactly that identifier); when nothing in the
hierarchy is registered, serialization fails with the `ValueError` whitelist
violation. -/
theorem C3_mro_resolution (s : StateRecoverySerializer) (key : String) (obj : PyValue)
    (hnn : obj ≠ PyValue.pyNone) :
    (∀ (pre : List PyTypeName) (a : PyTypeName) (post : List PyTypeName) (tid : String),
      mro (typeOf obj) = pre ++ a :: post →
      (∀ b ∈ pre, objectToTypeId s.entries b = Option.none) →
      objectToTypeId s.entries a = some tid →
      ∀ j : JVal, dumps s.default_serializer obj = .ok j →
        (jvalBytes j).length ≤ s.max_object_length →
        serializeValue s key obj
          = .ok (tid, some j, sign_serialization s key tid.data (jvalBytes j))) ∧
    ((∀ b ∈ mro (typeOf obj), objectToTypeId s.entries b = Option.none) →
      serializeValue s key obj
        = .error ⟨.valueError, "was not white-listed for serialization"⟩) := by
  constructor
  · intro pre a post tid hmro hpre ha j hj hlen
    rw [serializeValue_of_ne_none s key obj hnn, hmro,
      resolveTypeId_first s.entries pre a post tid hpre ha, hj]
    simp [Nat.not_lt.mpr hlen]
  · intro hall
    rw [serializeValue_of_ne_none s key obj hnn,
      resolveTypeId_none s.entries (mro (typeOf obj)) hall]

/-- C3 witness: under whitelist `{Point}`, a `Point3D` value — whose exact
type is unregistered — serializes under `Point`'s identifier `"8"`. -/
theorem C3_mro_resolution_witness :
    serializeValue testSer "k" (PyValue.pyPoint3D 1 2 3)
      = .ok ("8", some (JVal.jobj [("x", JVal.jint 1), ("y", JVal.jint 2), ("z", JVal.jint 3)]),
          sign_serialization testSer "k" "8".data
            (jvalBytes (JVal.jobj [("x", JVal.jint 1), ("y", JVal.jint 2),
              ("z", JVal.jint 3)]))) :=
  (C3_mro_resolution testSer "k" (PyValue.pyPoint3D 1 2 3) (by simp)).1
    [PyTypeName.point3D] PyTypeName.point [PyTypeName.pyObject] "8" rfl (by decide) rfl
    (JVal.jobj [("x", JVal.jint 1), ("y", JVal.jint 2), ("z", JVal.jint 3)]) rfl (by decide)

/-- Single-argument constructor calls never raise the module's own
`StateRecoveryFailureError`. -/
theorem pyConstruct1_error_cls (typ : PyTypeName) (s' : String) (e : PyExc)
    (h : pyConstruct1 typ s' = .error e) :
    e.cls ≠ PyExcClass.stateRecoveryFailureError := by
  intro hcls
  cases typ <;> simp only [pyConstruct1] at h <;> (try split at h) <;> simp_all <;>
    (cases h; simp at hcls)

/-- Keyword-expanded constructor calls never raise the module's own
`StateRecoveryFailureError`. -/
theorem pyConstructKw_error_cls (typ : PyTypeName) (kvs : List (String × JVal)) (e : PyExc)
    (h : pyConstructKw typ kvs = .error e) :
    e.cls ≠ PyExcClass.stateRecoveryFailureError := by
  intro hcls
  cases typ <;> simp only [pyConstructKw] at h <;> (try split at h) <;>
    (try split at h) <;> simp_all <;> (cases h; simp at hcls)

/-- C6 counterexample: a correctly signed `int` token whose payload is the
string `"abc"` fails reconstruction with a plain `ValueError` — the very same
exception class the whitelist violation uses — and no dedicated
reconstruction error exists; so the constructor failure is *not* reported as
an error distinct from the whitelist failure. -/
theorem C6_constructor_error_shares_class :
    deserializeValue testSer "k" "2" (some (JVal.jstr "abc"))
        (sign_serialization testSer "k" "2".data (payloadBytes (some (JVal.jstr "abc"))))
      = .error ⟨.valueError, "invalid literal for int() with base 10"⟩ ∧
    serializeValue testSer "k" (PyValue.pyDict [])
      = .error ⟨.valueError, "was not white-listed for serialization"⟩ := by
  exact ⟨rfl, rfl⟩

/-- C6 amended: a failure during step-5 reconstruction propagates unwrapped as
the constructor's (or decoder's) own exception — `TypeError`, `ValueError`,
`InvalidOperation` or `JSONDecodeError` — never as `StateRecoveryFailureError`;
it is therefore distinguishable from the signature-mismatch and unknown-type
failures (which are `StateRecoveryFailureError`s) but may coincide in class
with the `ValueError` whitelist failure. -/
theorem C6_reconstruction_error_unwrapped (s : StateRecoverySerializer)
    (typ : PyTypeName) (data : Option JVal) (e : PyExc)
    (hmap : s.deserializer_map = [])
    (herr : deserialize_object s (some typ) data = .error e) :
    e.cls ≠ PyExcClass.stateRecoveryFailureError := by
  unfold deserialize_object at herr
  cases data with
  | none =>
      simp only [loads] at herr
      cases herr
      decide
  | some j =>
      simp only [loads, hmap, lookupDeser] at herr
      cases j with
      | jstr s' => exact pyConstruct1_error_cls typ s' e herr
      | jobj kvs => exact pyConstructKw_error_cls typ kvs e herr
      | jnull => cases herr
      | jbool b => cases herr
      | jint n => cases herr
      | jnum q => cases herr
      | jarr xs => cases herr

/-- C6 witness: the concrete constructor failure of `int("abc")` is not a
`StateRecoveryFailureError`. -/
theorem C6_reconstruction_error_unwrapped_witness :
    (⟨PyExcClass.valueError, "invalid literal for int() with base 10"⟩ : PyExc).cls
      ≠ PyExcClass.stateRecoveryFailureError :=
  C6_reconstruction_error_unwrapped testSer PyTypeName.pyInt (some (JVal.jstr "abc"))
    ⟨PyExcClass.valueError, "invalid literal for int() with base 10"⟩ rfl rfl

/-- A single failing token makes the whole batch fail: the comprehension in
`deserialize_client_state` propagates the first exception, so no mapping is
returned. -/
theorem deserialize_client_state_abort (s : StateRecoverySerializer) :
    ∀ (tokens : List (String × Token)) (kt : String × Token), kt ∈ tokens →
      (∃ e, deserializeValue s kt.1 kt.2.1 kt.2.2.1 kt.2.2.2 = .error e) →
      ∀ m, deserialize_client_state s tokens ≠ .ok m := by
  intro tokens
  induction tokens with
  | nil =>
      intro kt h
      simp at h
  | cons head rest ih =>
      intro kt hmem he m hok
      obtain ⟨e, he⟩ := he
      obtain ⟨k, tok⟩ := head
      cases hd : deserializeValue s k tok.1 tok.2.1 tok.2.2 with
      | error e' => simp [deserialize_client_state, hd] at hok
      | ok v =>
          cases hr : deserialize_client_state s rest with
          | error e2 => simp [deserialize_client_state, hd, hr] at hok
          | ok r =>
              rcases List.mem_cons.mp hmem with heq | hmem'
              · subst heq
                rw [he] at hd
                cases hd
              · exact ih kt hmem' ⟨e, he⟩ r hr

/-- A successful batch contains the individual result of every token. -/
theorem deserialize_client_state_complete (s : StateRecoverySerializer) :
    ∀ (tokens : List (String × Token)) (m : List (String × PyValue)),
      deserialize_client_state s tokens = .ok m →
      ∀ kt ∈ tokens, ∃ v, deserializeValue s kt.1 kt.2.1 kt.2.2.1 kt.2.2.2 = .ok v ∧
        (kt.1, v) ∈ m := by
  intro tokens
  induction tokens with
  | nil =>
      intro m _ kt hmem
      simp at hmem
  | cons head rest ih =>
      intro m hok kt hmem
      obtain ⟨k, tok⟩ := head
      cases hd : deserializeValue s k tok.1 tok.2.1 tok.2.2 with
      | error e' => simp [deserialize_client_state, hd] at hok
      | ok v =>
          cases hr : deserialize_client_state s rest with
          | error e2 => simp [deserialize_client_state, hd, hr] at hok
          | ok r =>
              have hm : m = (k, v) :: r := by
                simp [deserialize_client_state, hd, hr] at hok
                exact hok.symm
              subst hm
              rcases List.mem_cons.mp hmem with heq | hmem'
              · subst heq
                exact ⟨v, hd, List.mem_cons_self _ _⟩
              · obtain ⟨v', hv', hin⟩ := ih r hr kt hmem'
                exact ⟨v', hv', List.mem_cons_of_mem _ hin⟩

/-- C9: batch deserialization is all-or-nothing: when any token of the input
mapping fails, the whole `deserialize_client_state` call fails and no mapping
at all is returned — and conversely any returned mapping contains the
successfully deserialized value of every input token, so a partial mapping is
never produced. -/
theorem C9_all_or_nothing (s : StateRecoverySerializer) (tokens : List (String × Token)) :
    ((∃ kt ∈ tokens, ∃ e, deserializeValue s kt.1 kt.2.1 kt.2.2.1 kt.2.2.2 = .error e) →
      ∀ m, deserialize_client_state s tokens ≠ .ok m) ∧
    (∀ m, deserialize_client_state s tokens = .ok m →
      ∀ kt ∈ tokens, ∃ v, deserializeValue s kt.1 kt.2.1 kt.2.2.1 kt.2.2.2 = .ok v ∧
        (kt.1, v) ∈ m) := by
  constructor
  · intro h m
    obtain ⟨kt, hmem, he⟩ := h
    exact deserialize_client_state_abort s tokens kt hmem he m
  · intro m hok kt hmem
    exact deserialize_client_state_complete s tokens m hok kt hmem

/-- C9 witness: a batch whose first token is fine (the `None` sentinel) and
whose second has an unknown type id does not return the partial mapping of
the part that had succeeded. -/
theorem C9_all_or_nothing_witness :
    deserialize_client_state testSer
        [("a", ("0", Option.none, "")), ("b", ("99", Option.none, ""))]
      ≠ .ok [("a", PyValue.pyNone)] :=
  (C9_all_or_nothing testSer
      [("a", ("0", Option.none, "")), ("b", ("99", Option.none, ""))]).1
    ⟨("b", ("99", Option.none, "")), List.mem_cons_of_mem _ (List.mem_cons_self _ _),
      ⟨⟨.stateRecoveryFailureError, "Unknown type id"⟩, rfl⟩⟩
    [("a", PyValue.pyNone)]

/-! ## Round-trip analysis (C1) -/

/-- JSON-native scalar values: orjson encodes them natively and the decoded
structure is returned unconverted (or, for strings, rebuilt identically by
`str(...)`), so they survive the round trip unchanged — also as list
elements. -/
def scalarNative : PyValue → Bool
  | .pyNone => true
  | .pyStr _ => true
  | .pyInt n => orjsonIntOk n
  | .pyFloat _ => true
  | .pyBool _ => true
  | _ => false

/-- The JSON structure a scalar-native value encodes to. -/
def scalarJ : PyValue → JVal
  | .pyNone => .jnull
  | .pyStr s => .jstr s
  | .pyInt n => .jint n
  | .pyFloat q => .jnum q
  | .pyBool b => .jbool b
  | _ => .jnull

/-- The registered values that survive the round trip under the scenario
registry: `None`, the native scalars, lists of native scalars, canonical
UUIDs, and `Point` values.  Registered types *outside* this predicate do not
round-trip: `tuple` and `Decimal` fail to encode without a default encoder,
and `datetime`/`date`/`time` decode to a string their constructor rejects. -/
def roundTrippable : PyValue → Bool
  | .pyList xs => xs.all scalarNative
  | .pyUUID s => uuidCanonical s
  | .pyPoint x y => orjsonIntOk x && orjsonIntOk y
  | v => scalarNative v

/-- The encoded byte length of a value (0 when encoding raises). -/
def payloadLen (v : PyValue) : Nat :=
  match dumps Option.none v with
  | .ok j => (jvalBytes j).length
  | .error _ => 0

theorem scalar_dumps (x : PyValue) (h : scalarNative x = true) :
    dumps Option.none x = .ok (scalarJ x) := by
  cases x <;> simp_all [scalarNative, scalarJ, dumps]

theorem scalar_back (x : PyValue) (h : scalarNative x = true) :
    jvalToPy (scalarJ x) = x := by
  cases x <;> first | rfl | simp [scalarNative] at h

theorem dumpsArr_scalar :
    ∀ xs : List PyValue, xs.all scalarNative = true →
      dumpsArr Option.none xs = .ok (xs.map scalarJ) := by
  intro xs
  induction xs with
  | nil => intro _; rfl
  | cons x rest ih =>
      intro h
      simp only [List.all_cons, Bool.and_eq_true] at h
      simp only [dumpsArr, scalar_dumps x h.1, ih h.2, List.map]

theorem jvalToPyArr_scalar :
    ∀ xs : List PyValue, xs.all scalarNative = true →
      jvalToPyArr (xs.map scalarJ) = xs := by
  intro xs
  induction xs with
  | nil => intro _; rfl
  | cons x rest ih =>
      intro h
      simp only [List.all_cons, Bool.and_eq_true] at h
      simp only [List.map, jvalToPyArr, scalar_back x h.1, ih h.2]

/-- The success shape of `_serialize` when resolution, encoding and the length
check go through. -/
theorem serializeValue_ok (s : StateRecoverySerializer) (key : String) (obj : PyValue)
    (tid : String) (j : JVal) (hobj : obj ≠ PyValue.pyNone)
    (hres : resolveTypeId s.entries (mro (typeOf obj)) = some tid)
    (hdmp : dumps s.default_serializer obj = .ok j)
    (hlen : (jvalBytes j).length ≤ s.max_object_length) :
    serializeValue s key obj
      = .ok (tid, some j, sign_serialization s key tid.data (jvalBytes j)) := by
  rw [serializeValue_of_ne_none s key obj hobj, hres, hdmp]
  simp [Nat.not_lt.mpr hlen]

/-- The success shape of `_deserialize` on a well-signed token of a registered
type, with no custom deserializer installed. -/
theorem deserializeValue_ok (s : StateRecoverySerializer) (key tid : String) (j : JVal)
    (typ : PyTypeName) (w : PyValue)
    (hnz : tid ≠ "0")
    (hreg : typeIdToObject s.entries tid = some (some typ))
    (hmap : s.deserializer_map = [])
    (hrec : (match j with
        | .jstr str => pyConstruct1 typ str
        | .jobj kvs => pyConstructKw typ kvs
        | _ => .ok (jvalToPy j)) = .ok w) :
    deserializeValue s key tid (some j)
        (sign_serialization s key tid.data (jvalBytes j)) = .ok w := by
  rw [deserializeValue_gate s key tid (some j) _ (some typ) hnz hreg,
    if_neg (by simp [payloadBytes])]
  simp only [deserialize_object, loads, hmap, lookupDeser]
  exact hrec

theorem bind_single_entry (s : StateRecoverySerializer) (key : String) (v w : PyValue)
    (tok : Token)
    (h1 : serializeValue s key v = .ok tok)
    (h2 : deserializeValue s key tok.1 tok.2.1 tok.2.2 = .ok w) :
    Except.bind (serialize_state_vars s [(key, v)]) (deserialize_client_state s)
      = .ok [(key, w)] := by
  simp [serialize_state_vars, h1, Except.bind, deserialize_client_state, h2]

/-- Round trip of a single entry through one serializer over the scenario
registry. -/
theorem roundtrip_single (s : StateRecoverySerializer)
    (hent : s.entries = registryEntries [PyTypeName.point])
    (hdef : s.default_serializer = Option.none)
    (hmap : s.deserializer_map = [])
    (key : String) (v : PyValue)
    (hv : roundTrippable v = true)
    (hlen : payloadLen v ≤ s.max_object_length) :
    Except.bind (serialize_state_vars s [(key, v)]) (deserialize_client_state s)
      = .ok [(key, v)] := by
  cases v with
  | pyNone =>
      refine bind_single_entry s key _ _ ("0", Option.none, "") rfl ?_
      simp [deserializeValue]
  | pyStr sv =>
      refine bind_single_entry s key _ _ _
        (serializeValue_ok s key _ "1" (.jstr sv) (by simp) (by rw [hent]; rfl)
          (by rw [hdef]; rfl) (by simpa [payloadLen] using hlen)) ?_
      exact deserializeValue_ok s key "1" (.jstr sv) .pyStr _ (by decide)
        (by rw [hent]; rfl) hmap rfl
  | pyInt n =>
      have hn : orjsonIntOk n = true := by simpa [roundTrippable, scalarNative] using hv
      have hdmp0 : dumps Option.none (PyValue.pyInt n) = .ok (.jint n) := by
        simp [dumps, hn]
      refine bind_single_entry s key _ _ _
        (serializeValue_ok s key _ "2" (.jint n) (by simp) (by rw [hent]; rfl)
          (by rw [hdef]; exact hdmp0) (by simpa [payloadLen, hdmp0] using hlen)) ?_
      exact deserializeValue_ok s key "2" (.jint n) .pyInt _ (by decide)
        (by rw [hent]; rfl) hmap rfl
  | pyFloat q =>
      refine bind_single_entry s key _ _ _
        (serializeValue_ok s key _ "3" (.jnum q) (by simp) (by rw [hent]; rfl)
          (by rw [hdef]; rfl) (by simpa [payloadLen] using hlen)) ?_
      exact deserializeValue_ok s key "3" (.jnum q) .pyFloat _ (by decide)
        (by rw [hent]; rfl) hmap rfl
  | pyBool b =>
      refine bind_single_entry s key _ _ _
        (serializeValue_ok s key _ "4" (.jbool b) (by simp) (by rw [hent]; rfl)
          (by rw [hdef]; rfl) (by simpa [payloadLen] using hlen)) ?_
      exact deserializeValue_ok s key "4" (.jbool b) .pyBool _ (by decide)
        (by rw [hent]; rfl) hmap rfl
  | pyList xs =>
      have hall : xs.all scalarNative = true := by simpa [roundTrippable] using hv
      have hdmp0 : dumps Option.none (PyValue.pyList xs) = .ok (.jarr (xs.map scalarJ)) := by
        simp [dumps, dumpsArr_scalar xs hall]
      refine bind_single_entry s key _ _ _
        (serializeValue_ok s key _ "5" (.jarr (xs.map scalarJ)) (by simp)
          (by rw [hent]; rfl) (by rw [hdef]; exact hdmp0)
          (by simpa [payloadLen, hdmp0] using hlen)) ?_
      refine deserializeValue_ok s key "5" (.jarr (xs.map scalarJ)) .pyList _ (by decide)
        (by rw [hent]; rfl) hmap ?_
      simp [jvalToPy, jvalToPyArr_scalar xs hall]
  | pyUUID u =>
      have hu : uuidCanonical u = true := by simpa [roundTrippable] using hv
      refine bind_single_entry s key _ _ _
        (serializeValue_ok s key _ "7" (.jstr u) (by simp) (by rw [hent]; rfl)
          (by rw [hdef]; rfl) (by simpa [payloadLen] using hlen)) ?_
      refine deserializeValue_ok s key "7" (.jstr u) .pyUUID _ (by decide)
        (by rw [hent]; rfl) hmap ?_
      simp [pyConstruct1, hu]
  | pyPoint a b =>
      have hab : (orjsonIntOk a && orjsonIntOk b) = true := by
        simpa [roundTrippable] using hv
      have hdmp0 : dumps Option.none (PyValue.pyPoint a b)
          = .ok (.jobj [("x", .jint a), ("y", .jint b)]) := by
        simp [dumps, hab]
      refine bind_single_entry s key _ _ _
        (serializeValue_ok s key _ "8" (.jobj [("x", .jint a), ("y", .jint b)]) (by simp)
          (by rw [hent]; rfl) (by rw [hdef]; exact hdmp0)
          (by simpa [payloadLen, hdmp0] using hlen)) ?_
      refine deserializeValue_ok s key "8" (.jobj [("x", .jint a), ("y", .jint b)])
        .point _ (by decide) (by rw [hent]; rfl) hmap ?_
      simp [pyConstructKw, lookupStr]
  | pyTuple xs => simp [roundTrippable, scalarNative] at hv
  | pyDict kvs => simp [roundTrippable, scalarNative] at hv
  | pyDecimal sv => simp [roundTrippable, scalarNative] at hv
  | pyDatetime sv => simp [roundTrippable, scalarNative] at hv
  | pyDate sv => simp [roundTrippable, scalarNative] at hv
  | pyTime sv => simp [roundTrippable, scalarNative] at hv
  | pyPoint3D a b c => simp [roundTrippable, scalarNative] at hv

/-- C1 counterexample: `Decimal` is a registered type (the manager appends it,
at identifier `"8"` under an empty whitelist), yet serializing a `Decimal`
value raises orjson's `TypeError` — no token is produced at all, so the
round-trip property fails for a registered type. -/
theorem C1_registered_type_fails_roundtrip :
    objectToTypeId (registryEntries []) PyTypeName.pyDecimal = some "8" ∧
    serialize_state_vars smallSer [("k", PyValue.pyDecimal "1")]
      = .error ⟨.typeError, "Type is not JSON serializable: decimal.Decimal"⟩ := by
  exact ⟨rfl, rfl⟩

/-- C1 amended: under the scenario registry (whitelist `{Point}`), with no
custom hooks installed, a value of a registered type that orjson encodes
natively *and* whose decoded form reconstructs — `None`, strings, ints,
floats, bools, lists of such scalars, canonical UUIDs, `Point`s — round-trips:
deserializing (with a serializer from the same manager, salt and time bucket)
the tokens produced by serializing `{key: v}` returns exactly `{key: v}`,
provided the encoding fits the payload-length bound.  (Registered types
outside this class — `tuple`, `Decimal`, the calendar types — do not
round-trip, as the counterexample shows.) -/
theorem C1_roundtrip (m : StateRecoveryManager) (salt key : String)
    (t₁ t₂ : Option Int) (now₁ now₂ : Int) (v : PyValue)
    (hent : m.entries = registryEntries [PyTypeName.point])
    (hdef : m.default_serializer = Option.none)
    (hmap : m.deserializer_map = [])
    (hbucket : Int.tdiv (pyOrTime t₁ now₁) m.otp_interval
      = Int.tdiv (pyOrTime t₂ now₂) m.otp_interval)
    (hv : roundTrippable v = true)
    (hlen : payloadLen v ≤ m.max_object_length) :
    Except.bind
        (serialize_state_vars (create_serializer m salt t₁ now₁) [(key, v)])
        (deserialize_client_state (create_serializer m salt t₂ now₂))
      = .ok [(key, v)] := by
  have hs : create_serializer m salt t₂ now₂ = create_serializer m salt t₁ now₁ := by
    simp [create_serializer, totpAt, hbucket]
  rw [hs]
  exact roundtrip_single (create_serializer m salt t₁ now₁) hent hdef hmap key v hv hlen

/-- C1 witness: the scenario `Point` round-trips between two serializers of
the same manager, salt and time bucket (`t = 1000` and `t = 2000` share the
4-hour bucket). -/
theorem C1_roundtrip_witness :
    Except.bind
        (serialize_state_vars (create_serializer pointMgr "sess" (some 1000) 1000)
          [("pos", PyValue.pyPoint 1 2)])
        (deserialize_client_state (create_serializer pointMgr "sess" (some 2000) 2000))
      = .ok [("pos", PyValue.pyPoint 1 2)] :=
  C1_roundtrip pointMgr "sess" "pos" (some 1000) (some 2000) 1000 2000
    (PyValue.pyPoint 1 2) rfl rfl rfl (by decide) rfl (by decide)
